import Mathlib

/-!
Verification of the Veidly test-data seeding script (`seed_test_data.py`).

The script is a linear pipeline of HTTP requests against a REST backend:
probe, admin login, user provisioning, email verification, event creation,
participation simulation, smoke tests, summary.  We embed it shallowly:
every HTTP response is supplied by an `Env` (the backend oracle), bodies
are a small JSON type, and the pipeline is a pure function from `Env` to an
exit code, a trace of issued calls, and the reported counts.

The script accesses response bodies dynamically, and those accesses can
raise: `body.get(...)` raises `AttributeError` on a non-object body, and
`event["id"]` raises `KeyError`/`TypeError` on a listing element that
lacks an id or is not an object.  An uncaught exception kills the process
with exit status 1, issuing no further calls and printing no summary.
The embedding keeps the stage loops total — they describe the iterations
on the shapes the script survives — and captures the raising paths
separately: `regCrash`/`create_users_crash` and `listingCrash` say when a
response shape raises, `create_usersE` is the provisioner with the escape
made explicit, and `main` consults the predicates exactly where the
exception would escape a stage, producing the crashed outcome (exit 1,
truncated trace, no reported counts).  A 200 login body that is not an
object also raises inside `get_admin_token`; its observable outcome
(exit 1 after the login call, nothing else issued) coincides with the
no-token outcome, so it is folded into that branch.
-/

namespace Seed

/-- JSON values as produced by `response.json()`.  Objects are association
lists in field order. -/
inductive Json where
  | null : Json
  | str : String → Json
  | num : Int → Json
  | bool : Bool → Json
  | obj : List (String × Json) → Json
  | arr : List Json → Json

/-- Python truthiness of a JSON value (`if token:`): empty string, zero,
`False`, `None`, empty object and empty array are falsy. -/
def Json.truthy : Json → Bool
  | .null => false
  | .str s => !s.isEmpty
  | .num n => n != 0
  | .bool b => b
  | .obj fields => !fields.isEmpty
  | .arr elems => !elems.isEmpty

/-- Python `body.get(key)` on an object body: field lookup.  On a
non-object receiver the script raises AttributeError instead of
returning; that path is modelled by `regCrash` and `create_users_crash`
below and routed to the crashed outcome in `main`, so this function is
only consulted where the script survives. -/
def Json.get : Json → String → Option Json
  | .obj fields, key => fields.lookup key
  | _, _ => none

/-- Whether a JSON value is an object, i.e. whether Python's `.get`
works on it rather than raising AttributeError. -/
def Json.isObj : Json → Bool
  | .obj _ => true
  | _ => false

/-- Python truthiness of `dict.get`s result: `None` is falsy, otherwise the
value's own truthiness. -/
def truthyOpt : Option Json → Bool
  | none => false
  | some j => j.truthy

/-- What the network layer does with one request: either raise a
`requests.exceptions.RequestException` carrying a message, or deliver an
HTTP status code together with the body, `none` when the body does not
parse as JSON. -/
inductive NetResult where
  | exn : String → NetResult
  | ok : Nat → Option Json → NetResult

/-- The `(status_code, response_data)` pair `api_call` builds from one
network outcome: an exception becomes `(0, error payload)`, a non-JSON
body becomes `(status, {})`. -/
def api_result : NetResult → Nat × Json
  | .exn msg => (0, Json.obj [("error", Json.str msg)])
  | .ok status (some j) => (status, j)
  | .ok status none => (status, Json.obj [])

/-- Status code of a network outcome as seen through the wrapper. -/
def statusOf (r : NetResult) : Nat := (api_result r).1

/-- One request as handed to the `requests` library: method, endpoint,
optional JSON body, optional bearer token. -/
structure HttpRequest where
  method : String
  endpoint : String
  data : Option Json
  token : Option Json

/-- The methods `api_call` dispatches on. -/
def isValidMethod (m : String) : Bool :=
  m == "GET" || m == "POST" || m == "PUT" || m == "DELETE"

/-- `api_call(method, endpoint, data, token)` over a network oracle `net`:
dispatch on the method (an unknown method is reported as status 0 with an
error payload, no request issued), then translate the network outcome with
`api_result`. -/
def api_call (net : HttpRequest → NetResult) (method endpoint : String)
    (data : Option Json) (token : Option Json) : Nat × Json :=
  if isValidMethod method then
    api_result (net ⟨method, endpoint, data, token⟩)
  else
    (0, Json.obj [("error", Json.str "Invalid method")])

/-- An instant: days since an epoch and microseconds within the day
(`datetime` restricted to what the script manipulates).  A value is a real
instant when `usec < 86400000000`. -/
structure DateTime where
  day : Nat
  usec : Nat
deriving DecidableEq

/-- Strict order on instants: earlier day, or same day and earlier
time of day. -/
def DateTime.before (a b : DateTime) : Bool :=
  a.day < b.day || (a.day == b.day && a.usec < b.usec)

/-- Minute component of an instant. -/
def DateTime.minute (d : DateTime) : Nat := d.usec / 60000000 % 60

/-- Second component of an instant. -/
def DateTime.second (d : DateTime) : Nat := d.usec / 1000000 % 60

/-- Microsecond component of an instant. -/
def DateTime.microsecond (d : DateTime) : Nat := d.usec % 1000000

/-- Hour component of an instant. -/
def DateTime.hour (d : DateTime) : Nat := d.usec / 3600000000

/-- `future_datetime(days, hour)`: `datetime.now() + timedelta(days=days)`,
then `replace(hour=hour, minute=0, second=0, microsecond=0)` — the day
offset is added to the current date and the time of day is pinned to
`hour` oclock sharp.  `now` is the instant of the call. -/
def future_datetime (now : DateTime) (days hour : Nat) : DateTime :=
  ⟨now.day + days, hour * 3600000000⟩

/-- One entry of the `USERS` table. -/
structure UserFixture where
  username : String
  email : String
  password : String
  name : String
  bio : String
  phone : String
  threema : String
  languages : String
deriving DecidableEq

/-- The five hardcoded user fixtures. -/
def USERS : List UserFixture :=
  [⟨"anna", "anna.kowalski@example.com", "SecurePass123", "Anna Kowalski",
    "Polish mom looking for playdates and coffee", "+48123456789", "ANNAPL", "pl,en"⟩,
   ⟨"marco", "marco.rossi@example.com", "SecurePass123", "Marco Rossi",
    "Italian sports enthusiast, love basketball and cycling", "+39334567890", "MARCOITA", "it,en"⟩,
   ⟨"sophie", "sophie.martin@example.com", "SecurePass123", "Sophie Martin",
    "French foodie and culture lover", "+33612345678", "SOPHIEFR", "fr,en"⟩,
   ⟨"hans", "hans.mueller@example.com", "SecurePass123", "Hans Müller",
    "German hiker and nature enthusiast", "+49151234567", "HANSDE", "de,en"⟩,
   ⟨"elena", "elena.garcia@example.com", "SecurePass123", "Elena García",
    "Spanish dancer and social butterfly", "+34612345678", "ELENAES", "es,en"⟩]

/-- One entry of a per-user event table. -/
structure EventFixture where
  location : String
  lat : Rat
  lng : Rat
  title : String
  desc : String
  category : String
  days : Nat
  hour : Nat
  max_p : Nat
  gender : String
  age_min : Nat
  age_max : Nat

/-- Anna's ten event fixtures. -/
def ANNA_EVENTS : List EventFixture :=
  [⟨"Warsaw, Poland", 52.2297, 21.0122, "Playground Meetup for Toddlers",
    "Looking for other moms with toddlers (2-4 years) to meet at the playground. Let\x27s chat while kids play!",
    "parents_kids", 2, 10, 5, "any", 25, 45⟩,
   ⟨"Krakow, Poland", 50.0647, 19.9450, "Coffee Morning for New Moms",
    "New to motherhood? Join us for coffee and support. Share experiences and make friends.",
    "social_drinks", 3, 9, 8, "female", 20, 50⟩,
   ⟨"Gdansk, Poland", 54.3520, 18.6466, "Baby Swimming Class",
    "Infant swimming session at local pool. Certified instructor, fun and safe environment.",
    "sports_fitness", 5, 11, 10, "any", 0, 5⟩,
   ⟨"Poznan, Poland", 52.4064, 16.9252, "Kids Birthday Party Planning",
    "Planning a birthday party? Let\x27s share ideas, vendors, and tips for amazing kids parties.",
    "social_drinks", 4, 14, 6, "any", 25, 45⟩,
   ⟨"Wroclaw, Poland", 51.1079, 17.0385, "Stroller Fitness Walk",
    "Power walking with strollers! Get fit while bonding with other moms. All fitness levels welcome.",
    "sports_fitness", 6, 10, 12, "female", 20, 45⟩,
   ⟨"Lodz, Poland", 51.7592, 19.4560, "Bilingual Playgroup (Polish-English)",
    "Playgroup for kids to practice English. Songs, games, and fun activities.",
    "parents_kids", 7, 15, 8, "any", 0, 10⟩,
   ⟨"Szczecin, Poland", 53.4285, 14.5528, "Mom\x27s Book Club",
    "Monthly book club for mothers. This month: modern parenting books. Bring wine!",
    "social_drinks", 8, 19, 10, "female", 25, 55⟩,
   ⟨"Lublin, Poland", 51.2465, 22.5684, "Craft Afternoon for Kids",
    "Arts and crafts session for children 5-10. Materials provided. Parents stay and chat!",
    "business_networking", 9, 14, 15, "any", 5, 12⟩,
   ⟨"Bydgoszcz, Poland", 53.1235, 18.0084, "Postpartum Support Group",
    "Safe space for new mothers to discuss challenges, share experiences, and support each other.",
    "social_drinks", 10, 17, 8, "female", 20, 45⟩,
   ⟨"Katowice, Poland", 50.2649, 19.0238, "Family Picnic in the Park",
    "Bring your family for a relaxed picnic. Kids can play, adults can network.",
    "social_drinks", 11, 12, 20, "any", 0, 99⟩]

/-- Marco's ten event fixtures. -/
def MARCO_EVENTS : List EventFixture :=
  [⟨"Rome, Italy", 41.9028, 12.4964, "Pickup Basketball Game",
    "Looking for 5v5 basketball at outdoor court. All skill levels welcome. Bring water!",
    "sports_fitness", 2, 18, 10, "any", 18, 45⟩,
   ⟨"Milan, Italy", 45.4642, 9.1900, "Morning Cycling Tour",
    "30km road cycling through city and countryside. Medium pace, coffee break included.",
    "sports_fitness", 3, 7, 8, "any", 20, 55⟩,
   ⟨"Florence, Italy", 43.7696, 11.2558, "Football/Soccer Kickabout",
    "Casual soccer game in the park. Just for fun, no pressure. All ages and levels.",
    "sports_fitness", 4, 17, 22, "any", 16, 50⟩,
   ⟨"Venice, Italy", 45.4408, 12.3155, "Beach Volleyball Tournament",
    "Beach volleyball at Lido. Form teams of 4. Prizes for winners! BBQ after.",
    "sports_fitness", 5, 15, 16, "any", 18, 40⟩,
   ⟨"Naples, Italy", 40.8518, 14.2681, "Tennis Doubles Match",
    "Looking for tennis partners for doubles. Intermediate level. Courts reserved.",
    "sports_fitness", 6, 9, 4, "any", 25, 50⟩,
   ⟨"Turin, Italy", 45.0703, 7.6869, "Mountain Biking Trail",
    "MTB ride through nearby trails. Moderate difficulty. Helmets required!",
    "sports_fitness", 7, 10, 6, "any", 20, 45⟩,
   ⟨"Bologna, Italy", 44.4949, 11.3426, "Climbing Gym Session",
    "Indoor climbing at local gym. Beginners welcome, equipment available for rent.",
    "sports_fitness", 8, 19, 8, "any", 18, 55⟩,
   ⟨"Genoa, Italy", 44.4056, 8.9463, "Running Club Meetup",
    "Weekly 10km run along the waterfront. All paces welcome. Stretching session after.",
    "sports_fitness", 9, 6, 15, "any", 18, 60⟩,
   ⟨"Verona, Italy", 45.4384, 10.9916, "Yoga in the Park",
    "Outdoor yoga session at sunset. Bring your mat. Suitable for all levels.",
    "sports_fitness", 10, 18, 20, "any", 16, 65⟩,
   ⟨"Palermo, Italy", 38.1157, 13.3615, "Swim Training Group",
    "Open water swimming practice. Lifeguard present. Intermediate swimmers.",
    "sports_fitness", 11, 8, 12, "any", 20, 50⟩]

/-- Sophie's ten event fixtures. -/
def SOPHIE_EVENTS : List EventFixture :=
  [⟨"Paris, France", 48.8566, 2.3522, "Wine Tasting Evening",
    "Discover French wines! Expert sommelier guides us through 6 wines and cheeses.",
    "food_dining", 2, 19, 12, "any", 21, 60⟩,
   ⟨"Lyon, France", 45.7640, 4.8357, "Cooking Class: French Pastries",
    "Learn to make croissants and pain au chocolat from scratch. Take home your creations!",
    "food_dining", 3, 14, 8, "any", 18, 65⟩,
   ⟨"Marseille, France", 43.2965, 5.3698, "Food Market Tour",
    "Explore local markets, taste regional specialties. Lunch at hidden gem bistro included.",
    "food_dining", 4, 10, 10, "any", 25, 70⟩,
   ⟨"Nice, France", 43.7102, 7.2620, "Picnic with French Delicacies",
    "Bring your favorite French dish to share. Wine, cheese, and conversation by the sea.",
    "food_dining", 5, 12, 15, "any", 20, 55⟩,
   ⟨"Bordeaux, France", 44.8378, -0.5792, "Vineyard Visit & Lunch",
    "Day trip to Bordeaux vineyard. Wine tasting, tour, and gourmet lunch.",
    "food_dining", 6, 11, 12, "any", 21, 65⟩,
   ⟨"Toulouse, France", 43.6047, 1.4442, "French Cinema Night",
    "Watch classic French film (with subtitles) followed by discussion and drinks.",
    "business_networking", 7, 20, 20, "any", 18, 99⟩,
   ⟨"Strasbourg, France", 48.5734, 7.7521, "Museum & Gallery Hopping",
    "Visit 3 art museums in one afternoon. Share impressions over coffee after.",
    "business_networking", 8, 14, 8, "any", 22, 70⟩,
   ⟨"Nantes, France", 47.2184, -1.5536, "Live Jazz & Dinner",
    "Evening at jazz club. Dinner reservations at 7pm, music starts at 9pm.",
    "business_networking", 9, 19, 10, "any", 25, 60⟩,
   ⟨"Lille, France", 50.6292, 3.0573, "French Conversation Exchange",
    "Practice French! Native speakers welcome. Casual café setting, order your own.",
    "learning_skills", 10, 18, 12, "any", 18, 99⟩,
   ⟨"Montpellier, France", 43.6108, 3.8767, "Chocolate Making Workshop",
    "Learn chocolate making from artisan chocolatier. Taste and take home samples!",
    "food_dining", 11, 15, 10, "any", 18, 65⟩]

/-- Hans's ten event fixtures. -/
def HANS_EVENTS : List EventFixture :=
  [⟨"Munich, Germany", 48.1351, 11.5820, "Alpine Hiking Adventure",
    "Full day hike in Bavarian Alps. 15km, moderate difficulty. Pack lunch and water.",
    "adventure_travel", 2, 8, 8, "any", 20, 55⟩,
   ⟨"Berlin, Germany", 52.5200, 13.4050, "Urban Nature Walk",
    "Discover Berlin\x27s hidden green spaces and parks. 2-hour easy walk with nature guide.",
    "adventure_travel", 3, 10, 15, "any", 16, 70⟩,
   ⟨"Hamburg, Germany", 53.5511, 9.9937, "Birdwatching by the Lake",
    "Early morning birdwatching. Bring binoculars if you have them. Hot coffee provided!",
    "adventure_travel", 4, 6, 10, "any", 18, 75⟩,
   ⟨"Frankfurt, Germany", 50.1109, 8.6821, "Forest Bathing (Shinrin-yoku)",
    "Mindful walk through forest. Reduce stress, connect with nature. Suitable for all.",
    "adventure_travel", 5, 14, 12, "any", 18, 65⟩,
   ⟨"Cologne, Germany", 50.9375, 6.9603, "Rhine River Kayaking",
    "Kayaking trip on the Rhine. Equipment provided. Basic swimming skills required.",
    "sports_fitness", 6, 9, 8, "any", 18, 50⟩,
   ⟨"Stuttgart, Germany", 48.7758, 9.1829, "Camping Weekend Prep",
    "Planning meeting for weekend camping trip. Discuss gear, location, and logistics.",
    "adventure_travel", 7, 19, 10, "any", 20, 55⟩,
   ⟨"Dresden, Germany", 51.0504, 13.7373, "Rock Climbing in Saxon Switzerland",
    "Outdoor rock climbing for experienced climbers. Safety equipment required.",
    "sports_fitness", 8, 8, 6, "any", 21, 50⟩,
   ⟨"Heidelberg, Germany", 49.3988, 8.6724, "Photography Walk in Nature",
    "Capture autumn colors! Bring your camera. Share tips and techniques.",
    "business_networking", 9, 15, 12, "any", 18, 70⟩,
   ⟨"Nuremberg, Germany", 49.4521, 11.0767, "Wild Mushroom Foraging",
    "Learn to identify edible mushrooms with expert mycologist. Cook findings together!",
    "adventure_travel", 10, 9, 8, "any", 25, 65⟩,
   ⟨"Leipzig, Germany", 51.3397, 12.3731, "Bike Tour Through Countryside",
    "40km easy cycling through villages and farmland. Stop at beer garden.",
    "sports_fitness", 11, 10, 10, "any", 18, 60⟩]

/-- Elena's ten event fixtures. -/
def ELENA_EVENTS : List EventFixture :=
  [⟨"Madrid, Spain", 40.4168, -3.7038, "Salsa Dancing Night",
    "Salsa night at local club! Beginners welcome, free lesson at 8pm. Dance till midnight!",
    "business_networking", 2, 20, 20, "any", 18, 45⟩,
   ⟨"Barcelona, Spain", 41.3851, 2.1734, "Beach Party & BBQ",
    "Sunset beach party at Barceloneta. Bring food to share. Music, dancing, swimming!",
    "social_drinks", 3, 18, 25, "any", 18, 50⟩,
   ⟨"Valencia, Spain", 39.4699, -0.3763, "Paella Cooking Party",
    "Cook authentic Valencian paella together! Eat, drink wine, make friends.",
    "food_dining", 4, 17, 12, "any", 20, 60⟩,
   ⟨"Seville, Spain", 37.3891, -5.9845, "Flamenco Show & Tapas",
    "Authentic flamenco performance followed by tapas bar crawl. Olé!",
    "business_networking", 5, 21, 15, "any", 21, 99⟩,
   ⟨"Malaga, Spain", 36.7213, -4.4214, "Girls Night Out",
    "Ladies only! Dinner, drinks, dancing. Let\x27s have fun and meet new friends!",
    "social_drinks", 6, 20, 12, "female", 21, 45⟩,
   ⟨"Bilbao, Spain", 43.2630, -2.9350, "Language Exchange: Spanish-English",
    "Practice languages over coffee and pintxos. Native speakers of any language welcome!",
    "learning_skills", 7, 19, 15, "any", 18, 99⟩,
   ⟨"Granada, Spain", 37.1773, -3.5986, "Sunset at Alhambra",
    "Watch sunset from Alhambra viewpoint. Bring wine and snacks. Magical experience!",
    "social_drinks", 8, 19, 10, "any", 18, 65⟩,
   ⟨"Zaragoza, Spain", 41.6488, -0.8891, "Karaoke Night",
    "Sing your heart out! Private karaoke room reserved. All skill levels (no judgment!)",
    "business_networking", 9, 21, 15, "any", 18, 99⟩,
   ⟨"Ibiza, Spain", 38.9067, 1.4206, "Yoga & Meditation Retreat",
    "Day retreat: yoga, meditation, healthy lunch. Find your zen by the sea.",
    "sports_fitness", 10, 9, 20, "any", 18, 70⟩,
   ⟨"San Sebastian, Spain", 43.3183, -1.9812, "Pintxos Bar Hopping Tour",
    "Try the best pintxos in town! 5 bars, 5 pintxos, lots of laughs.",
    "food_dining", 11, 19, 12, "any", 21, 60⟩]

/-- The `USER_EVENTS` table: username mapped to creator display name,
creator contact email and the event list. -/
def USER_EVENTS : List (String × String × String × List EventFixture) :=
  [("anna", "Anna Kowalski", "anna.kowalski@example.com", ANNA_EVENTS),
   ("marco", "Marco Rossi", "marco.rossi@example.com", MARCO_EVENTS),
   ("sophie", "Sophie Martin", "sophie.martin@example.com", SOPHIE_EVENTS),
   ("hans", "Hans Müller", "hans.mueller@example.com", HANS_EVENTS),
   ("elena", "Elena García", "elena.garcia@example.com", ELENA_EVENTS)]

/-- Lookup in `USER_EVENTS` (`USER_EVENTS[username]`; in the script every
looked-up key is one of the five usernames, so the default is never
reached there). -/
def lookupUserEvents (username : String) : String × String × List EventFixture :=
  match USER_EVENTS.lookup username with
  | some v => v
  | none => ("", "", [])

/-- The backend oracle: one network outcome for every request the script
can issue, plus the stream of `random.random() < 0.4` draws.  Requests are
keyed by the data that distinguishes them (username, user id, event index,
event id). -/
structure Env where
  healthStatus : Option Nat
  eventsStatus : Option Nat
  loginResp : NetResult
  regResp : String → NetResult
  profileResp : String → NetResult
  verifyResp : Json → NetResult
  eventResp : String → Nat → NetResult
  listResp : NetResult
  joinResp : String → Json → NetResult
  rand : Nat → Bool

/-- One step of the run, for the trace: the HTTP calls the script issues,
plus `mapInsert`, which marks the assignment `tokens[username] = ...`. -/
inductive Action where
  | probe : Action
  | adminLogin : Action
  | register : String → Action
  | mapInsert : String → Action
  | profileUpdate : String → Action
  | verifyEmail : Json → Action
  | createEvent : String → Nat → Action
  | fetchEvents : Action
  | joinEvent : String → Json → Action
  | fetchProfile : String → Action
  | filterQuery : String → Action

/-- `check_backend()`: `GET /health` counts only a 200 as alive; otherwise
(non-200 or exception) fall back to `GET /api/events`, where 200 or 401
counts as alive.  `none` models a raised request exception. -/
def check_backend (env : Env) : Bool :=
  match env.healthStatus with
  | some 200 => true
  | _ =>
    match env.eventsStatus with
    | some s => s == 200 || s == 401
    | none => false

/-- `get_admin_token()`: `POST /auth/login` with the admin credentials; on
a 200 return `body.get("token")` when that is truthy, otherwise nothing.
A non-200 status also yields nothing. -/
def get_admin_token (env : Env) : Option Json :=
  let r := api_result env.loginResp
  if r.1 == 200 then
    let token := r.2.get "token"
    if truthyOpt token then token else none
  else none

/-- Registration response of one user fixture, as the `(status, body)`
pair `api_call` returns for `POST /auth/register`. -/
def reg_response (env : Env) (u : UserFixture) : Nat × Json :=
  api_result (env.regResp u.username)

/-- `body.get("token")` of a fixture's registration response. -/
def regToken (env : Env) (u : UserFixture) : Option Json :=
  (reg_response env u).2.get "token"

/-- `body.get("user", {}).get("id")` of a fixture's registration
response. -/
def regUserId (env : Env) (u : UserFixture) : Option Json :=
  (((reg_response env u).2.get "user").getD (Json.obj [])).get "id"

/-- The per-fixture success test of `create_users`: registration status
200 or 201, and a token and a user id present in the body (present and
non-falsy — the script tests `if token and user_id:`). -/
def regSuccess (env : Env) (u : UserFixture) : Bool :=
  ((reg_response env u).1 == 200 || (reg_response env u).1 == 201)
    && truthyOpt (regToken env u) && truthyOpt (regUserId env u)

/-- The body of one iteration of the `create_users` loop: register, and on
success record `(token, user_id)` in the mapping, then issue the profile
update (whose status is only logged).  Returns the mapping entry, if any,
and the actions taken. -/
def processUser (env : Env) (u : UserFixture) : Option (Json × Json) × List Action :=
  let r := api_result (env.regResp u.username)
  if r.1 == 200 || r.1 == 201 then
    let token := r.2.get "token"
    let user_id := ((r.2.get "user").getD (Json.obj [])).get "id"
    if truthyOpt token && truthyOpt user_id then
      let _pstatus := api_result (env.profileResp u.username)
      (some (token.getD Json.null, user_id.getD Json.null),
       [Action.register u.username, Action.mapInsert u.username,
        Action.profileUpdate u.username])
    else
      (none, [Action.register u.username])
  else
    (none, [Action.register u.username])

/-- The `create_users` loop over a list of fixtures: the accumulated
`username → (token, user_id)` mapping in insertion order, and the trace. -/
def create_usersList (env : Env) : List UserFixture → List (String × Json × Json) × List Action
  | [] => ([], [])
  | u :: rest =>
    let r := processUser env u
    let acc2 := create_usersList env rest
    match r.1 with
    | some tv => ((u.username, tv.1, tv.2) :: acc2.1, r.2 ++ acc2.2)
    | none => (acc2.1, r.2 ++ acc2.2)

/-- `create_users()`: run the loop over the five fixtures. -/
def create_users (env : Env) : List (String × Json × Json) × List Action :=
  create_usersList env USERS

/-- The counter accumulated by the `verify_users_manually` loop: one
`PUT /admin/users/{id}/verify-email` per mapping entry, counting the 200s. -/
def verifiedCount (env : Env) (tokens : List (String × Json × Json)) : Nat :=
  tokens.foldl (fun c e => if statusOf (env.verifyResp e.2.2) == 200 then c + 1 else c) 0

/-- Trace of the verification loop. -/
def verifyTrace (tokens : List (String × Json × Json)) : List Action :=
  tokens.map (fun e => Action.verifyEmail e.2.2)

/-- `verify_users_manually(tokens, admin_token)`: `False` at once on an
empty mapping or a falsy admin token; otherwise run the loop and report
whether every user was verified. -/
def verify_users_manually (env : Env) (tokens : List (String × Json × Json))
    (admin_token : Option Json) : Bool :=
  if tokens.isEmpty then false
  else if !truthyOpt admin_token then false
  else verifiedCount env tokens == tokens.length

/-- The inner loop of `create_events` for one user: one `POST /events` per
event fixture (indexed in list order), counting 200/201 responses. -/
def createUserEvents (env : Env) (username : String) :
    List EventFixture → Nat → Nat × List Action
  | [], _ => (0, [])
  | _e :: rest, i =>
    let status := statusOf (env.eventResp username i)
    let r := createUserEvents env username rest (i + 1)
    ((if status == 200 || status == 201 then 1 else 0) + r.1,
     Action.createEvent username i :: r.2)

/-- The outer loop of `create_events` over the mapping: look the username
up in `USER_EVENTS` and run the inner loop; total the successes. -/
def create_eventsList (env : Env) : List (String × Json × Json) → Nat × List Action
  | [] => (0, [])
  | e :: rest =>
    let events := (lookupUserEvents e.1).2.2
    let r := createUserEvents env e.1 events 0
    let acc2 := create_eventsList env rest
    (r.1 + acc2.1, r.2 ++ acc2.2)

/-- `create_events(tokens)`: returns the count of successful creations. -/
def create_events (env : Env) (tokens : List (String × Json × Json)) : Nat × List Action :=
  create_eventsList env tokens

/-- Whether the `create_users` iteration for fixture `u` raises: a 200 or
201 registration response whose body is not a JSON object makes
`body.get("token")` raise AttributeError, and an object body whose `user`
field holds a non-object makes `user_data.get("id")` raise.  The
exception is uncaught and kills the run. -/
def regCrash (env : Env) (u : UserFixture) : Bool :=
  ((api_result (env.regResp u.username)).1 == 200
      || (api_result (env.regResp u.username)).1 == 201) &&
    (!(api_result (env.regResp u.username)).2.isObj ||
      (match (api_result (env.regResp u.username)).2.get "user" with
       | some v => !v.isObj
       | none => false))

/-- Whether the provisioning loop dies on some fixture's response
shape. -/
def create_users_crash (env : Env) : Bool :=
  USERS.any (fun u => regCrash env u)

/-- Calls issued by the provisioning loop up to the point where it dies:
the full per-fixture actions before the first raising fixture, then the
fatal registration call itself (whose profile update is never issued). -/
def create_usersCrashTrace (env : Env) : List UserFixture → List Action
  | [] => []
  | u :: rest =>
    if regCrash env u then [Action.register u.username]
    else (processUser env u).2 ++ create_usersCrashTrace env rest

/-- The `create_users` loop with the raising path made explicit: when a
fixture's response shape raises (see `regCrash`) the AttributeError
escapes and no mapping is returned; otherwise the result is that of the
total loop. -/
def create_usersListE (env : Env) :
    List UserFixture → Except String (List (String × Json × Json) × List Action)
  | [] => .ok ([], [])
  | u :: rest =>
    if regCrash env u then .error "AttributeError"
    else
      match (processUser env u).1, create_usersListE env rest with
      | _, .error e => .error e
      | some tv, .ok acc =>
        .ok ((u.username, tv.1, tv.2) :: acc.1, (processUser env u).2 ++ acc.2)
      | none, .ok acc => .ok (acc.1, (processUser env u).2 ++ acc.2)

/-- `create_users()` with the raising path: `Except.error` when the loop
dies on a response shape, otherwise exactly the mapping and trace of
`create_users`. -/
def create_usersE (env : Env) :
    Except String (List (String × Json × Json) × List Action) :=
  create_usersListE env USERS

/-- Whether the participation simulator dies extracting ids: a 200
listing whose JSON-array body has, among its first 20 elements, one that
is not an object (TypeError at the subscript) or lacks an `id` key
(KeyError).  The exception is uncaught and kills the run. -/
def listingCrash (env : Env) : Bool :=
  match (api_result env.listResp).2 with
  | Json.arr elems =>
    ((api_result env.listResp).1 == 200) &&
      (elems.take 20).any (fun e =>
        match e with
        | Json.obj fields => (fields.lookup "id").isNone
        | _ => true)
  | _ => false

/-- The candidate list of the participation simulator: `GET /events` must
return a 200 with a JSON array body; the ids of its first 20 elements are
kept (`body[:20]`).  `none` models the early return on failure.  The
elements are read here with a total lookup: the shapes on which the
script would instead raise are exactly those of `listingCrash`, and
`main` routes them to the crashed outcome before this extraction is
used. -/
def event_ids (env : Env) : Option (List Json) :=
  let r := api_result env.listResp
  match r.2 with
  | Json.arr elems =>
    if r.1 == 200 then some ((elems.take 20).map (fun e => (e.get "id").getD Json.null))
    else none
  | _ => none

/-- One iteration body of the per-user participation loop: on a random
draw below 0.4 (`dec k`) while fewer than 4 joins succeeded, issue the
join request and increment the count only on a 200/201; otherwise do
nothing.  Returns the new count and the requests issued. -/
def joinStep (dec : Nat → Bool) (resp : Json → NetResult) (username : String)
    (eid : Json) (k jc : Nat) : Nat × List Action :=
  if dec k && decide (jc < 4) then
    let status := statusOf (resp eid)
    ((if status == 200 || status == 201 then jc + 1 else jc),
     [Action.joinEvent username eid])
  else (jc, [])

/-- The per-user loop of `simulate_participation`: walk the candidate
list consuming one random draw per iteration (`k` indexes the stream),
run the body, and break out once 4 joins succeeded.  Returns the next
stream index, the join count, and the requests issued. -/
def simulate_user (dec : Nat → Bool) (resp : Json → NetResult) (username : String) :
    List Json → Nat → Nat → Nat × Nat × List Action
  | [], k, jc => (k, jc, [])
  | eid :: rest, k, jc =>
    let step := joinStep dec resp username eid k jc
    if 4 ≤ step.1 then (k + 1, step.1, step.2)
    else
      let r := simulate_user dec resp username rest (k + 1) step.1
      (r.1, r.2.1, step.2 ++ r.2.2)

/-- The loop of `simulate_participation` over the mapping, threading the
random stream.  Returns each user's final join count and the trace. -/
def simulate_all (env : Env) (eids : List Json) :
    List (String × Json × Json) → Nat → List (String × Nat) × List Action
  | [], _ => ([], [])
  | e :: rest, k =>
    let r := simulate_user env.rand (env.joinResp e.1) e.1 eids k 0
    let acc2 := simulate_all env eids rest r.1
    ((e.1, r.2.1) :: acc2.1, r.2.2 ++ acc2.2)

/-- `simulate_participation(tokens)`: fetch the listing and, unless that
failed, run the per-user loops. -/
def simulate_participation (env : Env) (tokens : List (String × Json × Json)) :
    List (String × Nat) × List Action :=
  match event_ids env with
  | none => ([], [Action.fetchEvents])
  | some eids => let r := simulate_all env eids tokens 0
                 (r.1, Action.fetchEvents :: r.2)

/-- Trace of `test_profiles(tokens)`: one authenticated `GET /profile` per
mapping entry. -/
def test_profiles_trace (tokens : List (String × Json × Json)) : List Action :=
  tokens.map (fun e => Action.fetchProfile e.1)

/-- Trace of `test_filters()`: the three unauthenticated filtered listing
queries. -/
def test_filters_trace : List Action :=
  [Action.filterQuery "category=activity_sports",
   Action.filterQuery "gender=female",
   Action.filterQuery "age=25"]

/-- Outcome of one run of `main()`: process exit code, trace of steps, and
the counts the summary reports (`none` on the aborted paths). -/
structure RunResult where
  exitCode : Nat
  trace : List Action
  usersCount : Option Nat
  verifiedCnt : Option Nat
  eventCount : Option Nat

/-- `main()`: probe the backend (exit 1 if unreachable), then log in as
admin — exit 1 on no token, and a 200 login body that is not an object
raises inside `get_admin_token` with the same observable outcome (exit 1
right after the login call), so it lands in the same branch.  Then
provision users: if some registration response shape raises
(`create_users_crash`) the uncaught AttributeError kills the run — exit
code 1, nothing after the fatal call issued, no counts reported.
Otherwise verify, create events and fetch the listing: if an id
extraction raises (`listingCrash`) the uncaught KeyError kills the run
after the fetch — exit code 1, the verified count already logged by the
verifier but no summary, hence no reported event count.  Otherwise the
joins, smoke tests and summary run; per-item failures in the stages never
change the exit code, which is 0. -/
def main (env : Env) : RunResult :=
  if check_backend env then
    match get_admin_token env with
    | none => ⟨1, [Action.probe, Action.adminLogin], none, none, none⟩
    | some _adminTok =>
      if create_users_crash env then
        ⟨1, [Action.probe, Action.adminLogin] ++ create_usersCrashTrace env USERS,
         none, none, none⟩
      else
        let cu := create_users env
        let tokens := cu.1
        let vcnt := verifiedCount env tokens
        let ce := create_events env tokens
        if listingCrash env then
          ⟨1, [Action.probe, Action.adminLogin] ++ cu.2 ++ verifyTrace tokens ++ ce.2
             ++ [Action.fetchEvents], none, some vcnt, none⟩
        else
          let sp := simulate_participation env tokens
          ⟨0,
           [Action.probe, Action.adminLogin] ++ cu.2 ++ verifyTrace tokens ++ ce.2
             ++ sp.2 ++ test_profiles_trace tokens ++ test_filters_trace,
           some tokens.length, some vcnt, some ce.1⟩
  else ⟨1, [Action.probe], none, none, none⟩

/-- Per-user actions of the provisioning loop on a successful
registration: register, insert into the mapping, update the profile. -/
def provisionTrace (u : UserFixture) : List Action :=
  [Action.register u.username, Action.mapInsert u.username, Action.profileUpdate u.username]

/-- Whether one event-creation call succeeds (status 200 or 201). -/
def eventCallOk (env : Env) (username : String) (i : Nat) : Bool :=
  statusOf (env.eventResp username i) == 200 || statusOf (env.eventResp username i) == 201

/-- Whether a trace step is a join request that came back 200/201. -/
def joinSucc (resp : Json → NetResult) : Action → Bool
  | .joinEvent _ eid => statusOf (resp eid) == 200 || statusOf (resp eid) == 201
  | _ => false

/-- Backend used by the C4 witness: the listing returns 25 events and
every join request succeeds, with every random draw selecting. -/
def envList : Env :=
  ⟨some 200, some 200, NetResult.ok 200 none,
   fun _ => NetResult.ok 200 none, fun _ => NetResult.ok 200 none,
   fun _ => NetResult.ok 200 none, fun _ _ => NetResult.ok 200 none,
   NetResult.ok 200 (some (Json.arr (List.replicate 25 (Json.obj [("id", Json.num 1)])))),
   fun _ _ => NetResult.ok 200 none, fun _ => true⟩

/-- Backend used by the C7 counterexample: probe, admin login, all five
registrations and all event-creation calls succeed, but every
verification call fails with a 500. -/
def envAllGood : Env :=
  ⟨some 200, some 200,
   NetResult.ok 200 (some (Json.obj [("token", Json.str "admintok")])),
   fun _ => NetResult.ok 200 (some (Json.obj [("token", Json.str "tok"),
     ("user", Json.obj [("id", Json.num 7)])])),
   fun _ => NetResult.ok 200 (some (Json.obj [])),
   fun _ => NetResult.ok 500 none,
   fun _ _ => NetResult.ok 201 (some (Json.obj [])),
   NetResult.ok 200 (some (Json.arr [])),
   fun _ _ => NetResult.ok 200 none,
   fun _ => false⟩

/-- Backend used by the C7 witness: as `envAllGood` but with every
verification call returning 200. -/
def envAllVerified : Env :=
  ⟨some 200, some 200,
   NetResult.ok 200 (some (Json.obj [("token", Json.str "admintok")])),
   fun _ => NetResult.ok 200 (some (Json.obj [("token", Json.str "tok"),
     ("user", Json.obj [("id", Json.num 7)])])),
   fun _ => NetResult.ok 200 (some (Json.obj [])),
   fun _ => NetResult.ok 200 (some (Json.obj [])),
   fun _ _ => NetResult.ok 201 (some (Json.obj [])),
   NetResult.ok 200 (some (Json.arr [])),
   fun _ _ => NetResult.ok 200 none,
   fun _ => false⟩

/-- Backend used by the first C8 scenario: both probes raise. -/
def envDown : Env :=
  ⟨none, none, NetResult.ok 200 none, fun _ => NetResult.ok 200 none,
   fun _ => NetResult.ok 200 none, fun _ => NetResult.ok 200 none,
   fun _ _ => NetResult.ok 200 none, NetResult.ok 200 none,
   fun _ _ => NetResult.ok 200 none, fun _ => false⟩

/-- Backend used by the second C8 scenario: reachable, but the admin
login is rejected with a 401. -/
def envNoAdmin : Env :=
  ⟨some 200, some 200, NetResult.ok 401 (some (Json.obj [])),
   fun _ => NetResult.ok 200 none, fun _ => NetResult.ok 200 none,
   fun _ => NetResult.ok 200 none, fun _ _ => NetResult.ok 200 none,
   NetResult.ok 200 none, fun _ _ => NetResult.ok 200 none, fun _ => false⟩

/-- The 20-event candidate list used by the C9 witness. -/
def eids20 : List Json := List.replicate 20 (Json.num 1)

/-- Backend used by the C10 witness: every registration succeeds but
every profile update fails with a 500. -/
def envProfileFail : Env :=
  ⟨some 200, some 200,
   NetResult.ok 200 (some (Json.obj [("token", Json.str "admintok")])),
   fun _ => NetResult.ok 200 (some (Json.obj [("token", Json.str "tok"),
     ("user", Json.obj [("id", Json.num 7)])])),
   fun _ => NetResult.ok 500 none,
   fun _ => NetResult.ok 200 none, fun _ _ => NetResult.ok 200 none,
   NetResult.ok 200 (some (Json.arr [])), fun _ _ => NetResult.ok 200 none,
   fun _ => false⟩

/-- The first user fixture, for the C10 witness. -/
def annaFix : UserFixture := USERS.get ⟨0, by decide⟩

/-- Backend used by the C2 counterexample: probe, admin login, every
registration and every event creation succeed, but the 200 listing is an
array whose single element carries no id, so the id extraction raises an
uncaught KeyError. -/
def envListCrash : Env :=
  ⟨some 200, some 200,
   NetResult.ok 200 (some (Json.obj [("token", Json.str "admintok")])),
   fun _ => NetResult.ok 200 (some (Json.obj [("token", Json.str "tok"),
     ("user", Json.obj [("id", Json.num 7)])])),
   fun _ => NetResult.ok 200 (some (Json.obj [])),
   fun _ => NetResult.ok 200 (some (Json.obj [])),
   fun _ _ => NetResult.ok 201 (some (Json.obj [])),
   NetResult.ok 200 (some (Json.arr [Json.obj []])),
   fun _ _ => NetResult.ok 200 none,
   fun _ => false⟩

/-- Backend used by the C5 counterexample: marco's registration is
answered 200 with a JSON array body, on which `body.get("token")` raises
an uncaught AttributeError; the other four registrations succeed. -/
def envRegCrash : Env :=
  ⟨some 200, some 200,
   NetResult.ok 200 (some (Json.obj [("token", Json.str "admintok")])),
   fun name => if name == "marco" then NetResult.ok 200 (some (Json.arr []))
     else NetResult.ok 200 (some (Json.obj [("token", Json.str "tok"),
       ("user", Json.obj [("id", Json.num 7)])])),
   fun _ => NetResult.ok 200 (some (Json.obj [])),
   fun _ => NetResult.ok 200 none,
   fun _ _ => NetResult.ok 201 (some (Json.obj [])),
   NetResult.ok 200 (some (Json.arr [])),
   fun _ _ => NetResult.ok 200 none,
   fun _ => false⟩

lemma processUser_pos (env : Env) (u : UserFixture) (h : regSuccess env u = true) :
    processUser env u =
      (some ((regToken env u).getD Json.null, (regUserId env u).getD Json.null),
       provisionTrace u) := by
  simp only [regSuccess, reg_response, regToken, regUserId, Bool.and_eq_true] at h
  obtain ⟨⟨h1, h2⟩, h3⟩ := h
  simp [processUser, provisionTrace, regToken, regUserId, reg_response, h1, h2, h3]

lemma processUser_neg (env : Env) (u : UserFixture) (h : regSuccess env u = false) :
    processUser env u = (none, [Action.register u.username]) := by
  simp only [regSuccess, reg_response, regToken, regUserId,
    Bool.and_eq_false_iff, Bool.or_eq_false_iff] at h
  simp only [processUser]
  rcases h with h | h
  · rcases h with h | h
    · simp [h]
    · cases hc : ((api_result (env.regResp u.username)).1 == 200
          || (api_result (env.regResp u.username)).1 == 201) <;> simp [h]
  · cases hc : ((api_result (env.regResp u.username)).1 == 200
        || (api_result (env.regResp u.username)).1 == 201) <;> simp [h]

/-- A successful registration test implies the response shape cannot
raise: the token lookup succeeding forces an object body, and the id
lookup succeeding forces the `user` field to be present and an
object. -/
lemma regSuccess_no_crash (env : Env) (u : UserFixture)
    (h : regSuccess env u = true) : regCrash env u = false := by
  simp only [regSuccess, reg_response, regToken, regUserId, Bool.and_eq_true] at h
  obtain ⟨⟨hst, htok⟩, hid⟩ := h
  unfold regCrash
  generalize hb : (api_result (env.regResp u.username)).2 = body at htok hid ⊢
  cases body with
  | obj fields =>
    simp only [Json.get] at htok hid ⊢
    cases hu : fields.lookup "user" with
    | none =>
      rw [hu] at hid
      simp [truthyOpt, Json.get, Option.getD] at hid
    | some v =>
      rw [hu] at hid
      cases v with
      | obj vf => simp [hu, Json.isObj]
      | null => simp [truthyOpt, Json.get, Option.getD] at hid
      | str s => simp [truthyOpt, Json.get, Option.getD] at hid
      | num n => simp [truthyOpt, Json.get, Option.getD] at hid
      | bool b => simp [truthyOpt, Json.get, Option.getD] at hid
      | arr es => simp [truthyOpt, Json.get, Option.getD] at hid
  | null => simp [Json.get, truthyOpt] at htok
  | str s => simp [Json.get, truthyOpt] at htok
  | num n => simp [Json.get, truthyOpt] at htok
  | bool b => simp [Json.get, truthyOpt] at htok
  | arr es => simp [Json.get, truthyOpt] at htok

/-- The provisioning loop survives when no fixture's response shape
raises. -/
lemma create_users_crash_false (env : Env)
    (h : ∀ u ∈ USERS, regCrash env u = false) :
    create_users_crash env = false := by
  unfold create_users_crash
  rw [List.any_eq_false]
  intro u hu
  simp [h u hu]

/-- With no raising response shape, the raising model of the provisioner
agrees with the total loop. -/
lemma create_usersListE_ok (env : Env) :
    ∀ us : List UserFixture, (∀ u ∈ us, regCrash env u = false) →
      create_usersListE env us = Except.ok (create_usersList env us)
  | [], _ => rfl
  | u :: rest, h => by
    have hu : regCrash env u = false := h u (by simp)
    have ih := create_usersListE_ok env rest (fun v hv => h v (by simp [hv]))
    simp only [create_usersListE, hu, Bool.false_eq_true, if_false, ih, create_usersList]
    cases hp : (processUser env u).1 <;> simp [hp]

/-- The mapping built by the provisioning loop: one entry per fixture
whose registration succeeded, in fixture order. -/
lemma create_usersList_fst (env : Env) :
    ∀ us : List UserFixture,
      (create_usersList env us).1 =
        us.filterMap (fun u =>
          if regSuccess env u then
            some (u.username, (regToken env u).getD Json.null, (regUserId env u).getD Json.null)
          else none)
  | [] => rfl
  | u :: rest => by
    by_cases hr : regSuccess env u = true
    · simp [create_usersList, processUser_pos env u hr, hr,
        create_usersList_fst env rest, provisionTrace]
    · have hr' : regSuccess env u = false := by simpa using hr
      simp [create_usersList, processUser_neg env u hr', hr',
        create_usersList_fst env rest]

/-- The trace of the provisioning loop. -/
lemma create_usersList_snd (env : Env) :
    ∀ us : List UserFixture,
      (create_usersList env us).2 =
        us.flatMap (fun u =>
          if regSuccess env u then provisionTrace u else [Action.register u.username])
  | [] => rfl
  | u :: rest => by
    by_cases hr : regSuccess env u = true
    · simp [create_usersList, processUser_pos env u hr, hr,
        create_usersList_snd env rest]
    · have hr' : regSuccess env u = false := by simpa using hr
      simp [create_usersList, processUser_neg env u hr', hr',
        create_usersList_snd env rest]

/-- Size of the mapping: the number of fixtures whose registration
succeeded. -/
lemma create_usersList_length (env : Env) (us : List UserFixture) :
    (create_usersList env us).1.length = us.countP (regSuccess env) := by
  induction us with
  | nil => rfl
  | cons u rest ih =>
    by_cases hr : regSuccess env u = true
    · simp [create_usersList, processUser_pos env u hr, hr, ih, List.countP_cons]
    · have hr' : regSuccess env u = false := by simpa using hr
      simp [create_usersList, processUser_neg env u hr', hr', ih, List.countP_cons]

/-- When every registration succeeds the mapping lists every fixture. -/
lemma create_usersList_all (env : Env) (us : List UserFixture)
    (h : ∀ u ∈ us, regSuccess env u = true) :
    (create_usersList env us).1 =
      us.map (fun u =>
        (u.username, (regToken env u).getD Json.null, (regUserId env u).getD Json.null)) := by
  rw [create_usersList_fst]
  induction us with
  | nil => rfl
  | cons u rest ih =>
    have hu := h u (by simp)
    simp [List.filterMap_cons, hu, ih (fun v hv => h v (by simp [hv]))]

lemma foldl_count_if {α : Type} (p : α → Bool) :
    ∀ (l : List α) (c : Nat),
      l.foldl (fun c e => if p e then c + 1 else c) c = c + l.countP p
  | [], c => by simp
  | e :: rest, c => by
    by_cases hp : p e = true
    · simp [List.foldl_cons, hp, foldl_count_if p rest (c + 1), List.countP_cons]
      omega
    · have hp' : p e = false := by simpa using hp
      simp [List.foldl_cons, hp', foldl_count_if p rest c, List.countP_cons]

/-- The verification counter counts the 200 responses. -/
lemma verifiedCount_eq_countP (env : Env) (tokens : List (String × Json × Json)) :
    verifiedCount env tokens =
      tokens.countP (fun e => statusOf (env.verifyResp e.2.2) == 200) := by
  have h := foldl_count_if (fun e => statusOf (env.verifyResp e.2.2) == 200) tokens 0
  simp only [Nat.zero_add] at h
  exact h

/-- When every event-creation call succeeds, the inner loop counts every
fixture of the list. -/
lemma createUserEvents_all (env : Env) (username : String)
    (h : ∀ i, eventCallOk env username i = true) :
    ∀ (evs : List EventFixture) (i : Nat),
      (createUserEvents env username evs i).1 = evs.length
  | [], _ => rfl
  | _e :: rest, i => by
    have := h i
    simp only [eventCallOk] at this
    simp [createUserEvents, this, createUserEvents_all env username h rest (i + 1),
      Nat.add_comm]

lemma joinStep_le (dec : Nat → Bool) (resp : Json → NetResult) (username : String)
    (eid : Json) (k jc : Nat) (h : jc ≤ 4) :
    (joinStep dec resp username eid k jc).1 ≤ 4 := by
  unfold joinStep
  by_cases hd : (dec k && decide (jc < 4)) = true
  · have hjc : jc < 4 := of_decide_eq_true ((Bool.and_eq_true _ _).mp hd).2
    simp only [hd, if_true]
    split <;> omega
  · simp only [Bool.not_eq_true] at hd
    simp [hd, h]

/-- The loop body adds to the counter exactly the number of issued join
requests that came back 200/201 (zero or one). -/
lemma joinStep_count (dec : Nat → Bool) (resp : Json → NetResult) (username : String)
    (eid : Json) (k jc : Nat) :
    (joinStep dec resp username eid k jc).1 =
      jc + (joinStep dec resp username eid k jc).2.countP (joinSucc resp) := by
  unfold joinStep
  by_cases hd : (dec k && decide (jc < 4)) = true
  · simp only [hd, if_true]
    by_cases hs : (statusOf (resp eid) == 200 || statusOf (resp eid) == 201) = true
    · simp [hs, List.countP_cons, joinSucc]
    · simp only [Bool.not_eq_true] at hs
      simp [hs, List.countP_cons, joinSucc]
  · simp only [Bool.not_eq_true] at hd
    simp [hd]

/-- The join counter never exceeds 4. -/
lemma simulate_user_le (dec : Nat → Bool) (resp : Json → NetResult) (username : String) :
    ∀ (eids : List Json) (k jc : Nat), jc ≤ 4 →
      (simulate_user dec resp username eids k jc).2.1 ≤ 4
  | [], _, _, h => h
  | eid :: rest, k, jc, h => by
    have hs := joinStep_le dec resp username eid k jc h
    simp only [simulate_user]
    split
    · exact hs
    · exact simulate_user_le dec resp username rest (k + 1) _ hs

/-- The final counter is the initial one plus the number of issued join
requests whose response was 200/201: failed joins do not count. -/
lemma simulate_user_count (dec : Nat → Bool) (resp : Json → NetResult) (username : String) :
    ∀ (eids : List Json) (k jc : Nat),
      (simulate_user dec resp username eids k jc).2.1 =
        jc + (simulate_user dec resp username eids k jc).2.2.countP (joinSucc resp)
  | [], _, _ => by simp [simulate_user]
  | eid :: rest, k, jc => by
    have hstep := joinStep_count dec resp username eid k jc
    simp only [simulate_user]
    split
    · exact hstep
    · have ih := simulate_user_count dec resp username rest (k + 1)
        (joinStep dec resp username eid k jc).1
      simp only [List.countP_append]
      omega

/-- When every draw selects and every join fails, a request is issued for
every candidate and the counter stays at zero. -/
lemma simulate_user_allfail (dec : Nat → Bool) (resp : Json → NetResult) (username : String)
    (hdec : ∀ n, dec n = true)
    (hfail : ∀ e, (statusOf (resp e) == 200 || statusOf (resp e) == 201) = false) :
    ∀ (eids : List Json) (k : Nat),
      (simulate_user dec resp username eids k 0).2.2.length = eids.length ∧
        (simulate_user dec resp username eids k 0).2.1 = 0
  | [], _ => by simp [simulate_user]
  | eid :: rest, k => by
    have hstep : joinStep dec resp username eid k 0 = (0, [Action.joinEvent username eid]) := by
      simp [joinStep, hdec k, hfail eid]
    have ih := simulate_user_allfail dec resp username hdec hfail rest (k + 1)
    simp [simulate_user, hstep, ih.1, ih.2]

/-- Every per-user join count reported by the simulator loop is at
most 4. -/
lemma simulate_all_le (env : Env) (eids : List Json) :
    ∀ (tokens : List (String × Json × Json)) (k : Nat),
      ∀ p ∈ (simulate_all env eids tokens k).1, p.2 ≤ 4
  | [], _, p, hp => by simp [simulate_all] at hp
  | e :: rest, k, p, hp => by
    simp only [simulate_all, List.mem_cons] at hp
    rcases hp with hp | hp
    · rw [hp]
      exact simulate_user_le env.rand (env.joinResp e.1) e.1 eids k 0 (by omega)
    · exact simulate_all_le env eids rest _ p hp

/-- The candidate list is at most the first 20 events of the listing. -/
lemma event_ids_length (env : Env) (eids : List Json) (h : event_ids env = some eids) :
    eids.length ≤ 20 := by
  simp only [event_ids] at h
  revert h
  cases hb : (api_result env.listResp).2 <;> intro h <;> try exact Option.noConfusion h
  case arr elems =>
    have h2 : (if ((api_result env.listResp).1 == 200) = true then
        some (List.map (fun e => (e.get "id").getD Json.null) (List.take 20 elems))
      else none) = some eids := h
    by_cases hs : ((api_result env.listResp).1 == 200) = true
    · rw [if_pos hs] at h2
      have he := Option.some.inj h2
      rw [← he]
      simp only [List.length_map, List.length_take]
      omega
    · rw [if_neg hs] at h2
      exact Option.noConfusion h2

/-- When every event-creation call succeeds, the total is the sum of the
per-user fixture-list lengths. -/
lemma create_eventsList_all (env : Env)
    (h : ∀ username i, eventCallOk env username i = true) :
    ∀ tokens : List (String × Json × Json),
      (create_eventsList env tokens).1 =
        (tokens.map (fun e => (lookupUserEvents e.1).2.2.length)).sum
  | [] => rfl
  | e :: rest => by
    simp [create_eventsList, createUserEvents_all env e.1 (h e.1),
      create_eventsList_all env h rest]

/-- Claim C1, counterexample to the claim as stated: at the valid instant
one microsecond after midnight, the event-time computation with day
offset 0 and hour 0 yields midnight of the same day, which is not
strictly in the future relative to the time of the call. -/
theorem c1_counterexample :
    (DateTime.mk 0 1).usec < 86400000000 ∧
    future_datetime ⟨0, 1⟩ 0 0 = ⟨0, 0⟩ ∧
    DateTime.before ⟨0, 1⟩ (future_datetime ⟨0, 1⟩ 0 0) = false := by
  refine ⟨by decide, rfl, by decide⟩

/-- Claim C1 (amended): for every day offset of at least 1 — every
fixture uses an offset of at least 2 — and every hour, the timestamp
produced by `future_datetime` falls strictly in the future relative to
the time of the call, and its minute, second and sub-second components
are zero. -/
theorem c1_future_datetime (now : DateTime) (d h : Nat) (hd : 1 ≤ d) :
    DateTime.before now (future_datetime now d h) = true ∧
    (future_datetime now d h).minute = 0 ∧
    (future_datetime now d h).second = 0 ∧
    (future_datetime now d h).microsecond = 0 := by
  refine ⟨?_, ?_, ?_, ?_⟩
  · have hlt : now.day < now.day + d := by omega
    simp [DateTime.before, future_datetime, hlt]
  · show h * 3600000000 / 60000000 % 60 = 0
    rw [Nat.mul_div_assoc h (by norm_num : (60000000 : Nat) ∣ 3600000000)]
    norm_num
  · show h * 3600000000 / 1000000 % 60 = 0
    rw [Nat.mul_div_assoc h (by norm_num : (1000000 : Nat) ∣ 3600000000)]
    norm_num
    have he : h * 3600 = h * 60 * 60 := by ring
    rw [he]
    exact Nat.mul_mod_left _ 60
  · show h * 3600000000 % 1000000 = 0
    have he : h * 3600000000 = h * 3600 * 1000000 := by ring
    rw [he]
    exact Nat.mul_mod_left _ 1000000

/-- Witness for C1 at day offset 2, hour 10, from one microsecond after
midnight of day 0. -/
theorem c1_witness :
    DateTime.before ⟨0, 1⟩ (future_datetime ⟨0, 1⟩ 2 10) = true ∧
    (future_datetime ⟨0, 1⟩ 2 10).minute = 0 ∧
    (future_datetime ⟨0, 1⟩ 2 10).second = 0 ∧
    (future_datetime ⟨0, 1⟩ 2 10).microsecond = 0 :=
  c1_future_datetime ⟨0, 1⟩ 2 10 (by decide)

/-- Claim C2, counterexample to the claim as stated: in `envListCrash`
the probe succeeds and the admin login yields a token, yet the run exits
with status 1 — the 200 listing contains an element without an id, so
the id extraction in the participation stage raises an uncaught
KeyError. -/
theorem c2_counterexample :
    check_backend envListCrash = true ∧
    (get_admin_token envListCrash).isSome = true ∧
    (main envListCrash).exitCode = 1 := by
  refine ⟨rfl, rfl, rfl⟩

/-- Claim C2 (amended): the exit code is 1 exactly when the availability
probe returns false, or the admin login yields no token, or the run is
killed by an uncaught exception on a malformed success body — a 200/201
registration body that is not a JSON object or has a non-object user
field, or a 200 listing among whose first 20 elements one lacks an id;
in every other run the exit code is 0, however many per-item failures
the stages hit. -/
theorem c2_exit_code (env : Env) :
    (main env).exitCode =
      if check_backend env = false ∨ (get_admin_token env).isSome = false
          ∨ create_users_crash env = true ∨ listingCrash env = true then 1 else 0 := by
  by_cases hb : check_backend env
  · cases ha : get_admin_token env with
    | none => simp [main, hb, ha]
    | some tok =>
      by_cases hcu : create_users_crash env
      · simp [main, hb, ha, hcu]
      · by_cases hl : listingCrash env
        · simp [main, hb, ha, hcu, hl]
        · simp [main, hb, ha, hcu, hl]
  · have hb' : check_backend env = false := by simpa using hb
    simp [main, hb']

/-- Claim C3: `api_call` is a total function — it never raises — and for
every method, endpoint, body and token: a network-level request failure
yields `(0, error payload)`, a response whose body is not parseable JSON
yields `(status, {})`, and an unknown method yields `(0, error payload)`
without any request being issued. -/
theorem c3_api_call_total (net : HttpRequest → NetResult) (m e : String)
    (d : Option Json) (t : Option Json) :
    (∀ msg, isValidMethod m = true → net ⟨m, e, d, t⟩ = NetResult.exn msg →
       api_call net m e d t = (0, Json.obj [("error", Json.str msg)])) ∧
    (∀ s, isValidMethod m = true → net ⟨m, e, d, t⟩ = NetResult.ok s none →
       api_call net m e d t = (s, Json.obj [])) ∧
    (isValidMethod m = false →
       api_call net m e d t = (0, Json.obj [("error", Json.str "Invalid method")])) := by
  refine ⟨?_, ?_, ?_⟩
  · intro msg hv hn
    simp [api_call, hv, hn, api_result]
  · intro s hv hn
    simp [api_call, hv, hn, api_result]
  · intro hv
    simp [api_call, hv]

/-- Witness for C3: a raised request, a non-JSON 500 body, and an unknown
method, each at concrete inputs. -/
theorem c3_witness :
    api_call (fun _ => NetResult.exn "boom") "GET" "/events" none none
      = (0, Json.obj [("error", Json.str "boom")]) ∧
    api_call (fun _ => NetResult.ok 500 none) "POST" "/events" none none
      = (500, Json.obj []) ∧
    api_call (fun _ => NetResult.ok 200 none) "PATCH" "/events" none none
      = (0, Json.obj [("error", Json.str "Invalid method")]) :=
  ⟨(c3_api_call_total (fun _ => NetResult.exn "boom") "GET" "/events" none none).1
      "boom" rfl rfl,
   (c3_api_call_total (fun _ => NetResult.ok 500 none) "POST" "/events" none none).2.1
      500 rfl rfl,
   (c3_api_call_total (fun _ => NetResult.ok 200 none) "PATCH" "/events" none none).2.2
      rfl⟩

/-- Claim C4: every per-user join count the participation simulator
records is at most 4, and the candidate list it considers is at most the
first 20 events of the fetched listing. -/
theorem c4_participation_caps (env : Env) (tokens : List (String × Json × Json)) :
    (∀ p ∈ (simulate_participation env tokens).1, p.2 ≤ 4) ∧
    (∀ eids, event_ids env = some eids → eids.length ≤ 20) := by
  constructor
  · intro p hp
    unfold simulate_participation at hp
    cases he : event_ids env with
    | none =>
      rw [he] at hp
      have hp2 : p ∈ ([] : List (String × Nat)) := hp
      simp at hp2
    | some eids =>
      rw [he] at hp
      have hp2 : p ∈ (simulate_all env eids tokens 0).1 := hp
      exact simulate_all_le env eids tokens 0 p hp2
  · intro eids he
    exact event_ids_length env eids he

/-- Witness for C4: on a 25-event listing with always-selecting draws and
always-succeeding joins, the single user stops at 4 joins and the
candidate list has exactly 20 entries. -/
theorem c4_witness :
    (4 : Nat) ≤ 4 ∧ (List.replicate 20 (Json.num 1)).length ≤ 20 :=
  ⟨(c4_participation_caps envList [("anna", Json.str "t", Json.num 1)]).1
     ("anna", 4) (by decide),
   (c4_participation_caps envList [("anna", Json.str "t", Json.num 1)]).2
     (List.replicate 20 (Json.num 1)) rfl⟩

/-- Claim C5, counterexample to the claim as stated: with marco's
registration answered 200 with a JSON array body, the provisioner raises
an uncaught AttributeError at the token lookup and returns no mapping at
all — there is no returned mapping whose size could equal the count of
successful fixtures (here 4) — and the run dies with exit code 1. -/
theorem c5_counterexample :
    create_usersE envRegCrash = Except.error "AttributeError" ∧
    USERS.countP (regSuccess envRegCrash) = 4 ∧
    (main envRegCrash).exitCode = 1 := by
  refine ⟨rfl, by decide, rfl⟩

/-- Claim C5 (amended): for every assignment of registration responses
under which no response shape makes the script raise — every 200/201
body is a JSON object whose `user` field, when present, is an object —
the provisioner returns normally, and the size of the returned mapping
equals the number of the five fixtures whose registration returned 200
or 201 with both a token and a user identifier present (and non-falsy,
as the script tests truthiness) in the response body. -/
theorem c5_create_users_size (env : Env)
    (hnc : create_users_crash env = false) :
    create_usersE env = Except.ok (create_users env) ∧
    (create_users env).1.length = USERS.countP (regSuccess env) := by
  have hall : ∀ u ∈ USERS, regCrash env u = false := by
    simpa [create_users_crash, List.any_eq_false] using hnc
  exact ⟨create_usersListE_ok env USERS hall, create_usersList_length env USERS⟩

/-- Witness for C5 on a backend where every registration succeeds with a
well-formed body. -/
theorem c5_witness :
    create_usersE envAllVerified = Except.ok (create_users envAllVerified) ∧
    (create_users envAllVerified).1.length =
      USERS.countP (regSuccess envAllVerified) :=
  c5_create_users_size envAllVerified rfl

/-- Claim C6: the verified count computed by the email verifier never
exceeds the number of provisioned users, and equals it exactly when every
verify call returns 200. -/
theorem c6_verified_count (env : Env) (tokens : List (String × Json × Json)) :
    verifiedCount env tokens ≤ tokens.length ∧
    (verifiedCount env tokens = tokens.length ↔
       ∀ e ∈ tokens, statusOf (env.verifyResp e.2.2) = 200) := by
  rw [verifiedCount_eq_countP]
  constructor
  · exact List.countP_le_length _
  · rw [List.countP_eq_length]
    constructor
    · intro hall e he
      simpa using hall e he
    · intro hall e he
      simpa using hall e he

/-- Claim C7, counterexample to the claim as stated: in `envAllGood` the
backend is reachable, the admin login succeeds, every registration and
every one of the fifty event-creation calls succeeds — all hypotheses of
the claim hold and the reported created-event count is 50 — yet the
verified count is 0 of 5, not 5, because the claim says nothing about the
verification calls, which here all fail. -/
theorem c7_counterexample :
    check_backend envAllGood = true ∧
    (get_admin_token envAllGood).isSome = true ∧
    USERS.all (fun u => regSuccess envAllGood u) = true ∧
    (USERS.all (fun u => (List.range (lookupUserEvents u.username).2.2.length).all
       (fun i => eventCallOk envAllGood u.username i))) = true ∧
    (main envAllGood).eventCount = some 50 ∧
    (main envAllGood).usersCount = some 5 ∧
    (main envAllGood).verifiedCnt = some 0 := by
  refine ⟨rfl, rfl, by decide, by decide, rfl, rfl, rfl⟩

/-- Claim C7 (amended): if the backend is reachable, the admin login
succeeds, every registration succeeds for the five fixtures, every
event-creation call succeeds, every verification call returns 200, and
the public listing response does not make the participation simulator
raise (among the first 20 elements of a 200 array body none lacks an
id), then the final reported created-event count is exactly 50 and the
verified count is 5 of 5.  (No such condition is needed for the
registration bodies: every registration succeeding already forces their
shapes to be non-raising, see `regSuccess_no_crash`.) -/
theorem c7_end_to_end (env : Env)
    (hb : check_backend env = true)
    (ha : (get_admin_token env).isSome = true)
    (hreg : ∀ u ∈ USERS, regSuccess env u = true)
    (hev : ∀ username i, eventCallOk env username i = true)
    (hver : ∀ j, statusOf (env.verifyResp j) = 200)
    (hlist : listingCrash env = false) :
    (main env).eventCount = some 50 ∧
    (main env).verifiedCnt = some 5 ∧
    (main env).usersCount = some 5 := by
  obtain ⟨tok, htok⟩ := Option.isSome_iff_exists.mp ha
  have hnc : create_users_crash env = false :=
    create_users_crash_false env (fun u hu => regSuccess_no_crash env u (hreg u hu))
  have htokens : (create_users env).1 =
      USERS.map (fun u => (u.username, (regToken env u).getD Json.null,
        (regUserId env u).getD Json.null)) :=
    create_usersList_all env USERS hreg
  have hlen : (create_users env).1.length = 5 := by
    rw [htokens]
    rfl
  have hv5 : verifiedCount env (create_users env).1 = 5 := by
    rw [verifiedCount_eq_countP]
    have hall : ∀ e ∈ (create_users env).1,
        (statusOf (env.verifyResp e.2.2) == 200) = true := by
      intro e _
      simpa using hver e.2.2
    rw [List.countP_eq_length.mpr hall]
    exact hlen
  have hev50 : (create_events env (create_users env).1).1 = 50 := by
    rw [create_events, create_eventsList_all env hev, htokens]
    rfl
  refine ⟨?_, ?_, ?_⟩ <;> simp [main, hb, htok, hnc, hlist, hev50, hv5, hlen]

/-- Witness for C7 on the fully successful backend. -/
theorem c7_witness :
    (main envAllVerified).eventCount = some 50 ∧
    (main envAllVerified).verifiedCnt = some 5 ∧
    (main envAllVerified).usersCount = some 5 :=
  c7_end_to_end envAllVerified rfl rfl (by decide) (fun _ _ => rfl) (fun _ => rfl) rfl

/-- Claim C8: with an unreachable backend the run exits with status 1
having issued only the probe — no admin-login and no provisioning call;
with a reachable backend but no admin token it exits with status 1 having
issued exactly the probe and the admin login — no user-registration
call. -/
theorem c8_abort_order (env : Env) :
    (check_backend env = false →
       (main env).exitCode = 1 ∧ (main env).trace = [Action.probe]) ∧
    (check_backend env = true → get_admin_token env = none →
       (main env).exitCode = 1 ∧
         (main env).trace = [Action.probe, Action.adminLogin]) := by
  constructor
  · intro hb
    simp [main, hb]
  · intro hb ha
    simp [main, hb, ha]

/-- Witness for C8 at the two concrete abort scenarios. -/
theorem c8_witness :
    ((main envDown).exitCode = 1 ∧ (main envDown).trace = [Action.probe]) ∧
    ((main envNoAdmin).exitCode = 1 ∧
       (main envNoAdmin).trace = [Action.probe, Action.adminLogin]) :=
  ⟨(c8_abort_order envDown).1 rfl, (c8_abort_order envNoAdmin).2 rfl rfl⟩

/-- Claim C9: a failed join request does not count toward the per-user
cap: the final join counter equals the number of issued join requests
that returned 200 or 201; and when every draw selects and every join
fails, one request is issued per candidate event — so a single user
issues 20 join requests on a 20-event candidate list. -/
theorem c9_failed_joins (dec : Nat → Bool) (resp : Json → NetResult)
    (username : String) (eids : List Json) (k : Nat) :
    ((simulate_user dec resp username eids k 0).2.1 =
       (simulate_user dec resp username eids k 0).2.2.countP (joinSucc resp)) ∧
    ((∀ n, dec n = true) →
     (∀ e, (statusOf (resp e) == 200 || statusOf (resp e) == 201) = false) →
       (simulate_user dec resp username eids k 0).2.2.length = eids.length ∧
       (simulate_user dec resp username eids k 0).2.1 = 0) := by
  constructor
  · have hc := simulate_user_count dec resp username eids k 0
    simpa using hc
  · intro hdec hfail
    exact simulate_user_allfail dec resp username hdec hfail eids k

/-- Witness for C9: with always-selecting draws and joins that always
fail with 409, the user issues 20 requests and the counter stays 0. -/
theorem c9_witness :
    (simulate_user (fun _ => true) (fun _ => NetResult.ok 409 none)
       "anna" eids20 0 0).2.2.length = eids20.length ∧
    (simulate_user (fun _ => true) (fun _ => NetResult.ok 409 none)
       "anna" eids20 0 0).2.1 = 0 :=
  (c9_failed_joins (fun _ => true) (fun _ => NetResult.ok 409 none)
      "anna" eids20 0).2 (fun _ => rfl) (fun _ => rfl)

/-- Claim C10: whenever a fixture's registration succeeds with token and
identifier present, that user's entry is in the returned mapping, and the
trace shows the mapping insertion immediately before the profile-update
call; the statement quantifies over every environment, in particular over
every profile-update response, so a failing profile update never removes
the user from the mapping. -/
theorem c10_insert_before_profile (env : Env) (u : UserFixture)
    (hm : u ∈ USERS) (hr : regSuccess env u = true) :
    ((u.username, (regToken env u).getD Json.null, (regUserId env u).getD Json.null)
       ∈ (create_users env).1) ∧
    (∃ pre post, (create_users env).2 =
       pre ++ [Action.register u.username, Action.mapInsert u.username,
               Action.profileUpdate u.username] ++ post) := by
  constructor
  · rw [create_users, create_usersList_fst]
    exact List.mem_filterMap.mpr ⟨u, hm, by simp [hr]⟩
  · rw [create_users, create_usersList_snd]
    obtain ⟨s, t, hst⟩ := List.append_of_mem hm
    refine ⟨s.flatMap (fun v =>
        if regSuccess env v then provisionTrace v else [Action.register v.username]),
      t.flatMap (fun v =>
        if regSuccess env v then provisionTrace v else [Action.register v.username]), ?_⟩
    rw [hst]
    simp [hr, provisionTrace]

/-- Witness for C10: with every profile update failing, the first fixture
still lands in the mapping, inserted before its profile-update call. -/
theorem c10_witness :
    ((annaFix.username, (regToken envProfileFail annaFix).getD Json.null,
       (regUserId envProfileFail annaFix).getD Json.null)
       ∈ (create_users envProfileFail).1) ∧
    (∃ pre post, (create_users envProfileFail).2 =
       pre ++ [Action.register annaFix.username, Action.mapInsert annaFix.username,
               Action.profileUpdate annaFix.username] ++ post) :=
  c10_insert_before_profile envProfileFail annaFix (by decide) (by decide)

end Seed
